import Mathlib

/-!
Shallow embedding of `intent_router.py` (`route_intent`) together with the
parts of `services/email_service.py` and `services/calendar_service.py` it
calls.  Backend services (Gmail, Calendar, Drive) are modelled as
environments of pure functions; every backend call the dispatcher issues is
recorded in a trace, and the mutable `last_items` context is threaded
explicitly through the per-step loop.
-/

namespace IntentRouter

/-- One item of the running context (`last_items`); produced by
`list`/`search` as `{"id":…, "subject":…, "from":…}` dictionaries.
Items produced with fewer keys (e.g. `list_by_label`) carry `""` in the
unused fields. -/
structure ResultItem where
  id : String
  subject : String
  from_ : String
deriving Repr, DecidableEq

/-- A Gmail label as returned by `es.list_labels`. -/
structure Label where
  id : String
  name : String
deriving Repr, DecidableEq

/-- The untyped `parameters` dictionary of an action step.  A field of value
`none` models an absent key; `some v` models the key being present with
value `v` (Python `None` values for present keys are out of scope). -/
structure Params where
  id : Option String := none
  ids : Option (List String) := none
  query : Option String := none
  q : Option String := none
  count : Option Nat := none
  maxResults : Option Nat := none
  max_results : Option Nat := none
  to_ : Option (List String) := none
  subject : Option String := none
  body : Option String := none
  body_text : Option String := none
  html : Option String := none
  attachments : Option (List String) := none
  name : Option String := none
  label_id : Option String := none
  label_ids : Option (List String) := none
  start : Option String := none
  end_ : Option String := none
  date : Option String := none
  time : Option String := none
  summary : Option String := none
  description : Option String := none
  file_id : Option String := none
  save_path : Option String := none
  file_path : Option String := none
  folder_id : Option String := none
  parent_id : Option String := none
  email : Option String := none
  role : Option String := none
  type_ : Option String := none
  mime_type : Option String := none
deriving Repr, DecidableEq

/-- One element of `intent["actions"]`. -/
structure ActionStep where
  action : String
  parameters : Params
deriving Repr, DecidableEq

/-- The parsed intent structure `{service, actions}`. -/
structure Intent where
  service : Option String
  actions : List ActionStep
deriving Repr, DecidableEq

/-- Python `str.lower()` (the action names and identifiers routed here are
ASCII). -/
def pyLower (s : String) : String :=
  ⟨s.data.map Char.toLower⟩

/-- Python `str.strip()`: drop whitespace from both ends. -/
def pyStrip (s : String) : String :=
  ⟨((s.data.dropWhile Char.isWhitespace).reverse.dropWhile Char.isWhitespace).reverse⟩

/-- Python truthiness of an optional string (`None` and `""` are falsy). -/
def strTruthy : Option String → Bool
  | some s => s ≠ ""
  | none => false

/-- Python `a or b` on optional strings. -/
def pyOr (a b : Option String) : Option String :=
  if strTruthy a then a else b

/-- Python truthiness of an optional integer (`None` and `0` are falsy). -/
def natTruthy : Option Nat → Bool
  | some n => n ≠ 0
  | none => false

/-- Python `a or b` on optional integers. -/
def pyOrNat (a b : Option Nat) : Option Nat :=
  if natTruthy a then a else b

/-- Python truthiness of an optional string list (`None` and `[]` falsy). -/
def listTruthy : Option (List String) → Bool
  | some l => l ≠ []
  | none => false

/-- `count = params.get("count") or params.get("maxResults") or
params.get("max_results")` — the unified count of the Gmail loop. -/
def unifiedCount (p : Params) : Option Nat :=
  pyOrNat (pyOrNat p.count p.maxResults) p.max_results

/-- `int(count) if count else d` — Python truthiness applied to the unified
count, with default `d`. -/
def countOr (p : Params) (d : Nat) : Nat :=
  if natTruthy (unifiedCount p) then (unifiedCount p).getD 0 else d

/-- `query = params.get("query") or params.get("q")`. -/
def unifiedQuery (p : Params) : Option String :=
  pyOr p.query p.q

/-- The placeholder marker test `str(v).startswith("\x7b\x7b")`: the first
two characters are both the opening-brace character (code 123). -/
def isPlaceholder (s : String) : Bool :=
  s.data.take 2 = [Char.ofNat 123, Char.ofNat 123]

/-- The Gmail backend, as the pure behaviour of the service calls the
dispatcher makes: `es.list_emails` / `es.search_emails` /
`es.list_emails_by_label` return message ids, the per-message detail fetch
returns subject and sender headers, and `es.list_labels` returns the label
list. -/
structure MailEnv where
  listRecent : Nat → List String
  searchIds : String → Nat → List String
  listByLabel : List String → Nat → List String
  getSubject : String → String
  getFrom : String → String
  labels : List Label

/-- A recorded Gmail backend call. -/
inductive MailCall where
  | listRecent (n : Nat)
  | searchMsgs (q : String) (n : Nat)
  | getDetail (id : String)
  | send (to_ subj body : String) (html : Option String) (atts : Option (List String))
  | readMsg (id : String)
  | attachmentsInfo (id : String)
  | listLabels
  | createLabel (name : String)
  | updateLabel (id newName : String)
  | deleteLabel (id : String)
  | listByLabel (ids : List String) (n : Nat)
  | markRead (id : String)
  | markUnread (id : String)
  | moveToLabel (id labelId : String)
  | trash (id : String)
  | summarize (n : Nat)
deriving Repr, DecidableEq

/-- Outcome of one Gmail action step: the context after the step, the
backend calls made (in order), and the error message if the step raised. -/
structure StepResult where
  ctx : List ResultItem
  calls : List MailCall
  err : Option String
deriving Repr, DecidableEq

/-- The detail fetch done for each listed/searched message id:
`{"id":…, "subject":…, "from":…}`. -/
def detail (env : MailEnv) (m : String) : ResultItem :=
  { id := m, subject := env.getSubject m, from_ := env.getFrom m }

/-- One iteration of the Gmail `for item in actions` loop body of
`route_intent`, for the already-lowercased action name `act`, starting from
context `ctx`.  Each `elif` branch of the source is one branch here; a
raised `ValueError` becomes `err = some msg` and leaves the context as it
was at the raise point. -/
def runMailAct (env : MailEnv) (ctx : List ResultItem) (act : String) (p : Params) : StepResult :=
  if act = "list" ∨ act = "search" then
    let n := countOr p 5
    let msgs :=
      if act = "search" ∧ strTruthy (unifiedQuery p) then
        env.searchIds ((unifiedQuery p).getD "") n
      else
        env.listRecent n
    let firstCall :=
      if act = "search" ∧ strTruthy (unifiedQuery p) then
        MailCall.searchMsgs ((unifiedQuery p).getD "") n
      else
        MailCall.listRecent n
    { ctx := msgs.map (detail env),
      calls := firstCall :: msgs.map MailCall.getDetail,
      err := none }
  else if act = "send" then
    let to_ := p.to_.getD []
    let subj := p.subject.getD ""
    let body := (pyOr p.body p.body_text).getD ""
    if to_ = [] ∨ subj = "" ∨ body = "" then
      { ctx := ctx, calls := [], err := some "Missing to, subject, or body" }
    else
      { ctx := [],
        calls := to_.map (fun r => MailCall.send r subj body p.html p.attachments),
        err := none }
  else if act = "read" then
    let tier2or3 : List String × List MailCall :=
      if strTruthy (unifiedQuery p) then
        let q := (unifiedQuery p).getD ""
        let n := countOr p 1
        (env.searchIds q n, [MailCall.searchMsgs q n])
      else
        ((ctx.take (countOr p 1)).map (·.id), [])
    let mids : List String × List MailCall :=
      match p.id with
      | some i => if ¬ isPlaceholder i then ([i], []) else tier2or3
      | none => tier2or3
    if mids.1 = [] then
      { ctx := ctx, calls := mids.2, err := some "No message IDs to read" }
    else
      { ctx := [],
        calls := mids.2 ++ mids.1.map MailCall.readMsg,
        err := none }
  else if act = "attachments_info" then
    let mid : Option String :=
      match p.id with
      | some r =>
          if r ≠ "" ∧ ¬ isPlaceholder r then some r
          else ctx.head?.map (·.id)
      | none => ctx.head?.map (·.id)
    match mid with
    | some m =>
        if m = "" then
          { ctx := ctx, calls := [], err := some "No message ID for attachments_info" }
        else
          { ctx := [], calls := [MailCall.attachmentsInfo m], err := none }
    | none =>
        { ctx := ctx, calls := [], err := some "No message ID for attachments_info" }
  else if act = "list_labels" then
    { ctx := [], calls := [MailCall.listLabels], err := none }
  else if act = "create_label" then
    if ¬ strTruthy p.name then
      { ctx := ctx, calls := [], err := some "Missing label name" }
    else
      { ctx := [], calls := [MailCall.createLabel (p.name.getD "")], err := none }
  else if act = "update_label" then
    if ¬ strTruthy p.id ∨ ¬ strTruthy p.name then
      { ctx := ctx, calls := [], err := some "Missing id or new name" }
    else
      let lid := p.id.getD ""
      let new := p.name.getD ""
      if env.labels.any (fun l => l.id = lid) then
        { ctx := ctx, calls := [MailCall.listLabels, MailCall.updateLabel lid new], err := none }
      else
        match env.labels.find? (fun l => pyLower l.name = pyLower lid) with
        | some lab =>
            { ctx := ctx,
              calls := [MailCall.listLabels, MailCall.listLabels,
                        MailCall.updateLabel lab.id new],
              err := none }
        | none =>
            { ctx := ctx,
              calls := [MailCall.listLabels, MailCall.listLabels],
              err := some "Label not found" }
  else if act = "delete_label" then
    if ¬ strTruthy p.id then
      { ctx := ctx, calls := [], err := some "Missing label id" }
    else
      { ctx := [], calls := [MailCall.deleteLabel (p.id.getD "")], err := none }
  else if act = "list_by_label" then
    let lids := p.label_ids.getD []
    if lids = [] then
      { ctx := ctx, calls := [], err := some "Missing label_ids" }
    else
      let cnt := p.count.getD 10
      let msgs := env.listByLabel lids cnt
      { ctx := msgs.map (fun m => { id := m, subject := "", from_ := "" }),
        calls := [MailCall.listByLabel lids cnt],
        err := none }
  else if act = "mark_read" ∨ act = "mark_unread" then
    let fallback : List String :=
      match p.id with
      | some i => [i]
      | none => ctx.map (·.id)
    let mids :=
      match p.ids with
      | some l => if l ≠ [] then l else fallback
      | none => fallback
    if mids = [] ∨ mids.head?.getD "" = "" then
      { ctx := ctx, calls := [], err := some "No message IDs to mark" }
    else
      { ctx := [],
        calls := mids.map (fun m =>
          if act = "mark_read" then MailCall.markRead m else MailCall.markUnread m),
        err := none }
  else if act = "move" then
    let mids :=
      match p.id with
      | some i => if ¬ isPlaceholder i then [i] else ctx.map (·.id)
      | none => ctx.map (·.id)
    if mids = [] then
      { ctx := ctx, calls := [], err := some "No message IDs to move" }
    else if ¬ strTruthy p.label_id then
      { ctx := ctx, calls := [], err := some "Missing label_id" }
    else
      let lid := p.label_id.getD ""
      if env.labels.any (fun l => l.id = lid) then
        { ctx := ctx,
          calls := MailCall.listLabels :: mids.map (fun m => MailCall.moveToLabel m lid),
          err := none }
      else
        match env.labels.find? (fun l => pyLower l.name = pyLower lid) with
        | some lab =>
            { ctx := ctx,
              calls := MailCall.listLabels :: mids.map (fun m => MailCall.moveToLabel m lab.id),
              err := none }
        | none =>
            { ctx := ctx, calls := [MailCall.listLabels], err := some "Label not found" }
  else if act = "delete" ∨ act = "batch_delete" then
    let mids := ctx.map (·.id)
    if mids = [] then
      { ctx := ctx, calls := [], err := some "No messages available to delete" }
    else
      { ctx := [], calls := mids.map MailCall.trash, err := none }
  else if act = "batch_mark_read" then
    let mids :=
      match p.ids with
      | some l => if l ≠ [] then l else ctx.map (·.id)
      | none => ctx.map (·.id)
    if mids = [] then
      { ctx := ctx, calls := [], err := some "No ids" }
    else
      { ctx := [], calls := mids.map MailCall.markRead, err := none }
  else if act = "summarize" ∨ act = "summarize_emails_with_ai" then
    let n := countOr p 3
    { ctx := [], calls := [MailCall.summarize n], err := none }
  else
    { ctx := ctx, calls := [], err := none }

/-- One Gmail action step, lowercasing the action name as the source does
(`act = item.get("action", "").lower()`). -/
def runMailStep (env : MailEnv) (ctx : List ResultItem) (st : ActionStep) : StepResult :=
  runMailAct env ctx (pyLower st.action) st.parameters

/-- The per-step report the `except` clause produces for a failing step
(`❌ Gmail action '<act>' failed: <e>`) or, with `err = none`, the record
that the step ran without raising. -/
structure StepReport where
  action : String
  err : Option String
deriving Repr, DecidableEq

/-- Accumulated state of one service batch: the running context, the
backend-call trace, and one report per executed step. -/
structure RunState where
  ctx : List ResultItem
  calls : List MailCall
  reports : List StepReport
deriving Repr, DecidableEq

/-- The Gmail `for item in actions` loop: every step runs inside the
`try/except` boundary, so a step's error is recorded and the loop
continues with the next step. -/
def runMailSteps (env : MailEnv) : List ActionStep → RunState → RunState
  | [], s => s
  | st :: rest, s =>
      let r := runMailStep env s.ctx st
      runMailSteps env rest
        { ctx := r.ctx,
          calls := s.calls ++ r.calls,
          reports := s.reports ++ [{ action := pyLower st.action, err := r.err }] }

/-! ### Calendar branch -/

/-- A civil date; `route_intent` works with `datetime.now(IST)`, whose date
component we take as the input `today`. -/
structure Date where
  year : Nat
  month : Nat
  day : Nat
deriving Repr, DecidableEq

/-- Gregorian leap-year rule, as Python `datetime` uses. -/
def isLeap (y : Nat) : Bool :=
  (y % 4 = 0 ∧ y % 100 ≠ 0) ∨ y % 400 = 0

/-- Days in a month of the proleptic Gregorian calendar. -/
def daysInMonth (y m : Nat) : Nat :=
  if m = 2 then (if isLeap y then 29 else 28)
  else if m = 4 ∨ m = 6 ∨ m = 9 ∨ m = 11 then 30
  else 31

/-- `datetime.now(IST) + timedelta(days=1)`, projected to its date: in a
fixed-offset zone adding one day advances the civil date by one. -/
def nextDay (d : Date) : Date :=
  if d.day < daysInMonth d.year d.month then ⟨d.year, d.month, d.day + 1⟩
  else if d.month < 12 then ⟨d.year, d.month + 1, 1⟩
  else ⟨d.year + 1, 1, 1⟩

/-- Two-digit zero padding, as the `f"{hour:02d}"` format. -/
def pad2 (n : Nat) : String :=
  if n < 10 then "0" ++ toString n else toString n

/-- Four-digit zero padding for years, as `date.isoformat()`. -/
def pad4 (n : Nat) : String :=
  if n < 10 then "000" ++ toString n
  else if n < 100 then "00" ++ toString n
  else if n < 1000 then "0" ++ toString n
  else toString n

/-- `date.isoformat()`: `YYYY-MM-DD`. -/
def isoDate (d : Date) : String :=
  pad4 d.year ++ "-" ++ pad2 d.month ++ "-" ++ pad2 d.day

/-- Numeric value of a digit string. -/
def natOfDigits (cs : List Char) : Nat :=
  cs.foldl (fun a c => a * 10 + (c.toNat - 48)) 0

/-- Which 24-hour hour `datetime.strptime(·, "%I%p")` yields: `%I` gives a
1–12 hour and `%p` selects the half of the day (`12am` is hour 0, `12pm`
hour 12). -/
def meridiemHour (h : Nat) (pm : Bool) : Nat :=
  if pm then h % 12 + 12 else h % 12

/-- `datetime.strptime(t, "%I%p").hour` on an already-lowercased string:
one or two digits in 1..12 immediately followed by `am` or `pm`; anything
else raises (`none`). -/
def parseTime12 (t : String) : Option Nat :=
  let cs := t.toList
  let digits := cs.takeWhile Char.isDigit
  let rest := cs.dropWhile Char.isDigit
  let h := natOfDigits digits
  if (digits.length = 1 ∨ digits.length = 2) ∧ 1 ≤ h ∧ h ≤ 12 then
    if rest = ['a', 'm'] then some (meridiemHour h false)
    else if rest = ['p', 'm'] then some (meridiemHour h true)
    else none
  else none

/-- The start/end construction of the Calendar `create` branch
(`intent_router.py` lines 269–288): explicit `start`/`end` if both present;
otherwise a `date` (with `"tomorrow"` resolved against today's IST date)
plus an optional `%I%p` time giving a one-hour slot, defaulting to
09:00–10:00 `+05:30`. -/
def calendarCreateStartEnd (today : Date) (p : Params) : Except String (String × String) :=
  match p.start, p.end_ with
  | some s, some e => .ok (s, e)
  | _, _ =>
    match p.date with
    | some d =>
        let base := pyLower (pyStrip d)
        let date_str := if base = "tomorrow" then isoDate (nextDay today) else d
        match p.time with
        | some t =>
            if t ≠ "" then
              match parseTime12 (pyLower t) with
              | some hour =>
                  .ok (date_str ++ "T" ++ pad2 hour ++ ":00:00+05:30",
                       date_str ++ "T" ++ pad2 (hour + 1) ++ ":00:00+05:30")
              | none => .error "time data does not match format"
            else
              .ok (date_str ++ "T09:00:00+05:30", date_str ++ "T10:00:00+05:30")
        | none =>
            .ok (date_str ++ "T09:00:00+05:30", date_str ++ "T10:00:00+05:30")
    | none => .error "Missing start/end or date"

/-- An event as returned by `cs.list_events`. -/
structure CalItem where
  id : String
  start : String
  summary : String
deriving Repr, DecidableEq

/-- The Calendar backend: `cs.list_events` results and the id the backend
assigns to an inserted event. -/
structure CalEnv where
  listEvents : Nat → List CalItem
  insertId : String

/-- A recorded Calendar backend call. -/
inductive CalCall where
  | listEvents (n : Nat)
  | insertEvent (summary start end_ : String) (description : Option String)
deriving Repr, DecidableEq

/-- Outcome of one Calendar action step. -/
structure CalStepResult where
  ctx : List CalItem
  calls : List CalCall
  err : Option String
deriving Repr, DecidableEq

/-- One iteration of the Calendar `for item in actions` loop body, for the
already-lowercased action name. -/
def runCalAct (env : CalEnv) (today : Date) (ctx : List CalItem) (act : String) (p : Params) :
    CalStepResult :=
  if act = "list" then
    let cnt := p.count.getD 5
    let evs := env.listEvents cnt
    { ctx := evs, calls := [CalCall.listEvents cnt], err := none }
  else if act = "create" then
    match calendarCreateStartEnd today p with
    | .error e => { ctx := ctx, calls := [], err := some e }
    | .ok (s, e) =>
        let summary := p.summary.getD "No Title"
        { ctx := [{ id := env.insertId, start := "", summary := "" }],
          calls := [CalCall.insertEvent summary s e p.description],
          err := none }
  else
    { ctx := ctx, calls := [], err := none }

/-- Accumulated state of a Calendar batch. -/
structure CalRunState where
  ctx : List CalItem
  calls : List CalCall
  reports : List StepReport
deriving Repr, DecidableEq

/-- The Calendar per-step loop with its `try/except` boundary. -/
def runCalSteps (env : CalEnv) (today : Date) : List ActionStep → CalRunState → CalRunState
  | [], s => s
  | st :: rest, s =>
      let r := runCalAct env today s.ctx (pyLower st.action) st.parameters
      runCalSteps env today rest
        { ctx := r.ctx,
          calls := s.calls ++ r.calls,
          reports := s.reports ++ [{ action := pyLower st.action, err := r.err }] }

/-! ### Drive branch -/

/-- A file as the Drive backend stores it. -/
structure DriveFile where
  id : String
  name : String
  mimeType : String
  trashed : Bool
  parents : List String
deriving Repr, DecidableEq

/-- Mutable state of the Drive branch: the backend's files, the process-wide
`folder_map` name→ID cache, and the stream of ids the backend will assign
to newly created files/folders. -/
structure DriveSt where
  files : List DriveFile
  folder_map : List (String × String)
  idSupply : List String
deriving Repr, DecidableEq

/-- `folder_map.get(name)`: first binding for the key, if any. -/
def mapGet (m : List (String × String)) (k : String) : Option String :=
  (m.find? (fun kv => kv.1 = k)).map (fun kv => kv.2)

/-- `folder_map[name] = fid`: dictionary update (newest binding shadows). -/
def mapSet (m : List (String × String)) (k v : String) : List (String × String) :=
  (k, v) :: m

/-- A recorded Drive backend call. -/
inductive DriveCall where
  | listFiles (nameContains mime : Option String) (n : Nat)
  | getFile (fid : String)
  | download (fid path : String)
  | createFile (name : String) (parents : List String)
  | deleteFile (fid : String)
  | createFolder (name : String) (parents : List String)
  | updateParents (fid addParent removeParents : String)
  | createPermission (fid email role type_ : String)
deriving Repr, DecidableEq

/-- The Drive folder MIME type string. -/
def folderMime : String :=
  "application/vnd.google-apps.folder"

/-- The helper `get_folder_id_by_name`: query for non-trashed folders with
exactly that name, first match wins. -/
def get_folder_id_by_name (files : List DriveFile) (nm : String) : Option String :=
  ((files.filter (fun f => f.mimeType = folderMime ∧ f.name = nm ∧ f.trashed = false)).head?).map
    (fun f => f.id)

/-- `os.path.basename` for the forward-slash paths the router passes on. -/
def pyBasename (s : String) : String :=
  (s.splitOn "/").getLastD s

/-- Outcome of one Drive action step: new state, calls made, error. -/
structure DriveStepResult where
  st : DriveSt
  calls : List DriveCall
  err : Option String
deriving Repr, DecidableEq

/-- Take the next backend-assigned id. -/
def takeId (s : DriveSt) : String × DriveSt :=
  match s.idSupply with
  | [] => ("", s)
  | i :: rest => (i, { s with idSupply := rest })

/-- One iteration of the Drive `for item in actions` loop body, for the
already-lowercased action name.  Backend mutations (create, delete, move)
are reflected in the file list so later lookups see them. -/
def runDriveAct (s : DriveSt) (act : String) (p : Params) : DriveStepResult :=
  if act = "list_files" then
    let n := p.count.getD 10
    let nameQ := if strTruthy p.query then p.query else none
    let mimeQ := if strTruthy p.mime_type then p.mime_type else none
    { st := s, calls := [DriveCall.listFiles nameQ mimeQ n], err := none }
  else if act = "get_file_info" then
    if ¬ strTruthy p.file_id then
      { st := s, calls := [], err := some "Missing file_id" }
    else
      { st := s, calls := [DriveCall.getFile (p.file_id.getD "")], err := none }
  else if act = "download_file" then
    if ¬ strTruthy p.file_id then
      { st := s, calls := [], err := some "Missing file_id" }
    else
      let raw := p.file_id.getD ""
      let fidOpt : Option String :=
        if ¬ raw.data.contains '-' ∧ ¬ raw.data.contains '_' then
          ((s.files.filter (fun f => f.name = raw ∧ f.trashed = false)).head?).map (fun f => f.id)
        else
          some raw
      match fidOpt with
      | none => { st := s, calls := [], err := some "No file found with that name" }
      | some fid =>
          let path := (pyOr p.save_path (some raw)).getD ""
          { st := s, calls := [DriveCall.download fid path], err := none }
  else if act = "upload_file" then
    if ¬ strTruthy p.file_path then
      { st := s, calls := [], err := some "Missing file_path" }
    else
      let fp := p.file_path.getD ""
      let resolved : Option String × List (String × String) :=
        match p.folder_id with
        | some fn =>
            if fn ≠ "" then
              if strTruthy (mapGet s.folder_map fn) then
                (mapGet s.folder_map fn, s.folder_map)
              else
                match get_folder_id_by_name s.files fn with
                | some fid =>
                    if fid ≠ "" then (some fid, mapSet s.folder_map fn fid)
                    else (some fid, s.folder_map)
                | none => (none, s.folder_map)
            else (none, s.folder_map)
        | none => (none, s.folder_map)
      let nm := pyBasename fp
      let parents := if strTruthy resolved.1 then [resolved.1.getD ""] else []
      let (newId, s1) := takeId { s with folder_map := resolved.2 }
      { st := { s1 with files := s1.files ++
          [{ id := newId, name := nm, mimeType := p.mime_type.getD "", trashed := false,
             parents := parents }] },
        calls := [DriveCall.createFile nm parents],
        err := none }
  else if act = "delete_file" then
    if ¬ strTruthy p.file_id then
      { st := s, calls := [], err := some "Missing file_id" }
    else
      let fid := p.file_id.getD ""
      { st := { s with files := s.files.filter (fun f => f.id ≠ fid) },
        calls := [DriveCall.deleteFile fid],
        err := none }
  else if act = "create_folder" then
    if ¬ strTruthy p.name then
      { st := s, calls := [], err := some "Missing name" }
    else
      let nm := p.name.getD ""
      let parents := if strTruthy p.parent_id then [p.parent_id.getD ""] else []
      let (newId, s1) := takeId s
      { st := { s1 with
          files := s1.files ++
            [{ id := newId, name := nm, mimeType := folderMime, trashed := false,
               parents := parents }],
          folder_map := mapSet s1.folder_map nm newId },
        calls := [DriveCall.createFolder nm parents],
        err := none }
  else if act = "move_file" then
    if ¬ strTruthy p.file_id ∨ ¬ strTruthy p.folder_id then
      { st := s, calls := [], err := some "Missing file_id or folder_id" }
    else
      let fid := p.file_id.getD ""
      let target := p.folder_id.getD ""
      match pyOr (mapGet s.folder_map target) (get_folder_id_by_name s.files target) with
      | none => { st := s, calls := [], err := some "Folder not found" }
      | some folderId =>
          if folderId = "" then
            { st := s, calls := [], err := some "Folder not found" }
          else
            let prev := String.intercalate ","
              (((s.files.find? (fun f => f.id = fid)).map (fun f => f.parents)).getD [])
            { st := { s with files := s.files.map (fun f =>
                if f.id = fid then { f with parents := [folderId] } else f) },
              calls := [DriveCall.updateParents fid folderId prev],
              err := none }
  else if act = "share_file" then
    if ¬ strTruthy p.file_id ∨ ¬ strTruthy p.email then
      { st := s, calls := [], err := some "Missing file_id or email" }
    else
      { st := s,
        calls := [DriveCall.createPermission (p.file_id.getD "") (p.email.getD "")
          (p.role.getD "reader") (p.type_.getD "user")],
        err := none }
  else
    { st := s, calls := [], err := none }

/-- Accumulated state of a Drive batch. -/
structure DriveRunState where
  st : DriveSt
  calls : List DriveCall
  reports : List StepReport
deriving Repr, DecidableEq

/-- The Drive per-step loop with its `try/except` boundary. -/
def runDriveSteps : List ActionStep → DriveRunState → DriveRunState
  | [], s => s
  | step :: rest, s =>
      let r := runDriveAct s.st (pyLower step.action) step.parameters
      runDriveSteps rest
        { st := r.st,
          calls := s.calls ++ r.calls,
          reports := s.reports ++ [{ action := pyLower step.action, err := r.err }] }

/-! ### Top-level routing -/

/-- The configured backends (`service_clients`): a `none` entry models a
service whose client was not initialized. -/
structure Clients where
  gmail : Option MailEnv
  calendar : Option CalEnv
  drive : Option DriveSt

/-- Result of one `route_intent` call.  The `*Unavailable` constructors are
the early `print(...); return` paths taken before any step of the batch
runs; `unroutable` is the final `else: print("ERROR")`. -/
inductive RouteOutcome where
  | gmailUnavailable
  | gmailRun (s : RunState)
  | calUnavailable
  | calRun (s : CalRunState)
  | driveUnavailable
  | driveRun (s : DriveRunState)
  | unroutable

/-- `route_intent(service_clients, intent)`: top-level dispatch on
`intent["service"]`, with `last_items` initialized empty for the batch. -/
def routeIntent (c : Clients) (today : Date) (intent : Intent) : RouteOutcome :=
  if intent.service = some "gmail" then
    match c.gmail with
    | none => .gmailUnavailable
    | some env => .gmailRun (runMailSteps env intent.actions ⟨[], [], []⟩)
  else if intent.service = some "calendar" then
    match c.calendar with
    | none => .calUnavailable
    | some env => .calRun (runCalSteps env today intent.actions ⟨[], [], []⟩)
  else if intent.service = some "drive" then
    match c.drive with
    | none => .driveUnavailable
    | some st => .driveRun (runDriveSteps intent.actions ⟨st, [], []⟩)
  else .unroutable

/-! ### Sample backends for concrete evaluations -/

/-- A concrete Gmail backend used to evaluate the dispatcher on closed
inputs. -/
def sampleEnv : MailEnv where
  listRecent := fun n => (List.range n).map (fun i => "m" ++ toString i)
  searchIds := fun _ n => (List.range n).map (fun i => "s" ++ toString i)
  listByLabel := fun _ n => (List.range n).map (fun i => "b" ++ toString i)
  getSubject := fun m => "subj-" ++ m
  getFrom := fun m => "from-" ++ m
  labels := [{ id := "L1", name := "Work" }, { id := "L2", name := "Personal" }]

/-- A concrete Calendar backend. -/
def sampleCalEnv : CalEnv where
  listEvents := fun n => (List.range n).map (fun i => { id := "e" ++ toString i, start := "", summary := "" })
  insertId := "EV1"

/-- A concrete initial Drive state: one folder named `Work` (id `F1`), one
plain file (id `X`), empty name cache, and backend ids `N1`, `N2` for the
next created files. -/
def sampleDrive : DriveSt where
  files :=
    [{ id := "F1", name := "Work", mimeType := folderMime, trashed := false, parents := ["root"] },
     { id := "X", name := "doc.txt", mimeType := "text/plain", trashed := false, parents := ["root"] }]
  folder_map := []
  idSupply := ["N1", "N2"]

/-- A `service_clients` mapping with no client initialized. -/
def noClients : Clients :=
  { gmail := none, calendar := none, drive := none }

end IntentRouter

namespace IntentRouter

/-! ## Theorems -/

/-- **C1.** A mail `delete`/`batch_delete` step ignores its parameters
entirely (no direct-ID form); with an empty context it fails before any
backend delete call; with a non-empty context it issues exactly one trash
call per context item, in context order, and clears the context. -/
theorem c1_delete_targets_context (env : MailEnv) (ctx : List ResultItem)
    (p p2 : Params) (act : String) (hact : act = "delete" ∨ act = "batch_delete") :
    runMailAct env ctx act p = runMailAct env ctx act p2 ∧
    (ctx = [] →
      runMailAct env ctx act p =
        { ctx := ctx, calls := [], err := some "No messages available to delete" }) ∧
    (ctx ≠ [] →
      runMailAct env ctx act p =
        { ctx := [], calls := ctx.map (fun i => MailCall.trash i.id), err := none }) := by
  rcases hact with h | h <;> subst h <;>
    refine ⟨rfl, fun hc => ?_, fun hc => ?_⟩ <;>
    simp [runMailAct, hc]

/-- Witness for C1: context `[A, B]`, a `delete` step with unrelated
parameters trashes exactly `A` then `B` and empties the context. -/
theorem c1_witness :
    ([({ id := "A", subject := "sA", from_ := "fA" } : ResultItem),
      { id := "B", subject := "sB", from_ := "fB" }] ≠ ([] : List ResultItem)) ∧
    runMailAct sampleEnv
      [{ id := "A", subject := "sA", from_ := "fA" },
       { id := "B", subject := "sB", from_ := "fB" }] "delete" { id := some "Z" } =
      { ctx := [], calls := [MailCall.trash "A", MailCall.trash "B"], err := none } := by
  refine ⟨by decide, ?_⟩
  have h := c1_delete_targets_context sampleEnv
    [{ id := "A", subject := "sA", from_ := "fA" },
     { id := "B", subject := "sB", from_ := "fB" }]
    { id := some "Z" } { id := some "Z" } "delete" (Or.inl rfl)
  rw [h.2.2 (by decide)]
  rfl

/-- Every Gmail step contributes exactly one report carrying its lowercased
action name, whether or not the step raised. -/
theorem runMailSteps_reports_map (env : MailEnv) (steps : List ActionStep) (s : RunState) :
    (runMailSteps env steps s).reports.map (fun r => r.action) =
      s.reports.map (fun r => r.action) ++ steps.map (fun st => pyLower st.action) := by
  induction steps generalizing s with
  | nil => simp [runMailSteps]
  | cons st rest ih => simp [runMailSteps, ih]

/-- Calendar analogue of `runMailSteps_reports_map`. -/
theorem runCalSteps_reports_map (env : CalEnv) (today : Date) (steps : List ActionStep)
    (s : CalRunState) :
    (runCalSteps env today steps s).reports.map (fun r => r.action) =
      s.reports.map (fun r => r.action) ++ steps.map (fun st => pyLower st.action) := by
  induction steps generalizing s with
  | nil => simp [runCalSteps]
  | cons st rest ih => simp [runCalSteps, ih]

/-- Drive analogue of `runMailSteps_reports_map`. -/
theorem runDriveSteps_reports_map (steps : List ActionStep) (s : DriveRunState) :
    (runDriveSteps steps s).reports.map (fun r => r.action) =
      s.reports.map (fun r => r.action) ++ steps.map (fun st => pyLower st.action) := by
  induction steps generalizing s with
  | nil => simp [runDriveSteps]
  | cons st rest ih => simp [runDriveSteps, ih]

/-- **C5.** Per-step failure isolation: every step of a batch yields exactly
one report labelled with that step's action name (so an error in one step
never removes a later step's execution), the loop always continues from a
step's result regardless of its error; and a requested service whose client
was not supplied aborts the whole batch with the unavailable outcome,
before any step runs. -/
theorem c5_step_isolation_and_service_abort :
    (∀ (env : MailEnv) (steps : List ActionStep),
      (runMailSteps env steps { ctx := [], calls := [], reports := [] }).reports.map
          (fun r => r.action) =
        steps.map (fun st => pyLower st.action)) ∧
    (∀ (env : MailEnv) (s : RunState) (st : ActionStep) (rest : List ActionStep),
      runMailSteps env (st :: rest) s =
        runMailSteps env rest
          { ctx := (runMailStep env s.ctx st).ctx,
            calls := s.calls ++ (runMailStep env s.ctx st).calls,
            reports := s.reports ++
              [{ action := pyLower st.action, err := (runMailStep env s.ctx st).err }] }) ∧
    (∀ (c : Clients) (today : Date) (intent : Intent),
      c.gmail = none → intent.service = some "gmail" →
        routeIntent c today intent = RouteOutcome.gmailUnavailable) ∧
    (∀ (c : Clients) (today : Date) (intent : Intent),
      c.calendar = none → intent.service = some "calendar" →
        routeIntent c today intent = RouteOutcome.calUnavailable) ∧
    (∀ (c : Clients) (today : Date) (intent : Intent),
      c.drive = none → intent.service = some "drive" →
        routeIntent c today intent = RouteOutcome.driveUnavailable) ∧
    (∀ (env : CalEnv) (today : Date) (steps : List ActionStep),
      (runCalSteps env today steps { ctx := [], calls := [], reports := [] }).reports.map
          (fun r => r.action) =
        steps.map (fun st => pyLower st.action)) ∧
    (∀ (steps : List ActionStep) (st0 : DriveSt),
      (runDriveSteps steps { st := st0, calls := [], reports := [] }).reports.map
          (fun r => r.action) =
        steps.map (fun st => pyLower st.action)) := by
  refine ⟨?_, ?_, ?_, ?_, ?_, ?_, ?_⟩
  · intro env steps
    simpa using runMailSteps_reports_map env steps { ctx := [], calls := [], reports := [] }
  · intro env s st rest
    rfl
  · intro c today intent hc hs
    simp [routeIntent, hs, hc]
  · intro c today intent hc hs
    simp [routeIntent, hs, hc]
  · intro c today intent hc hs
    simp [routeIntent, hs, hc]
  · intro env today steps
    simpa using runCalSteps_reports_map env today steps { ctx := [], calls := [], reports := [] }
  · intro steps st0
    simpa using runDriveSteps_reports_map steps { st := st0, calls := [], reports := [] }

/-- Witness for C5: a two-step Gmail batch whose first step fails (empty
context `delete`) still produces one report per step in order, and with no
Gmail client the same intent aborts as unavailable. -/
theorem c5_witness :
    (runMailSteps sampleEnv
        [{ action := "delete", parameters := {} }, { action := "list", parameters := {} }]
        { ctx := [], calls := [], reports := [] }).reports.map (fun r => r.action) =
      ["delete", "list"] ∧
    noClients.gmail = none ∧
    routeIntent noClients ⟨2024, 5, 1⟩
        { service := some "gmail",
          actions := [{ action := "delete", parameters := {} }] } =
      RouteOutcome.gmailUnavailable := by
  refine ⟨?_, rfl, ?_⟩
  · have h := c5_step_isolation_and_service_abort.1 sampleEnv
      [{ action := "delete", parameters := {} }, { action := "list", parameters := {} }]
    rw [h]
    decide
  · exact c5_step_isolation_and_service_abort.2.2.1 noClients ⟨2024, 5, 1⟩
      { service := some "gmail", actions := [{ action := "delete", parameters := {} }] }
      rfl rfl

/-- **C4 (amended).** After every successful mail action that consumes or
destroys implicitly referenced entities — `delete`, `batch_delete`, `read`,
`send`, `mark_read`, `mark_unread`, `create_label`, `delete_label` — the
context is empty; `update_label`, however, leaves the context exactly as it
was (the claim's inclusion of `update_label` among the clearing actions
fails on the code). -/
theorem c4_context_cleared_amended (env : MailEnv) (ctx : List ResultItem) (p : Params)
    (act : String)
    (hact : act = "delete" ∨ act = "batch_delete" ∨ act = "read" ∨ act = "send" ∨
      act = "mark_read" ∨ act = "mark_unread" ∨ act = "create_label" ∨ act = "delete_label") :
    ((runMailAct env ctx act p).err = none → (runMailAct env ctx act p).ctx = []) ∧
    (runMailAct env ctx "update_label" p).ctx = ctx := by
  constructor
  · rcases hact with rfl | rfl | rfl | rfl | rfl | rfl | rfl | rfl
    · by_cases hc : ctx = [] <;> simp [runMailAct, hc]
    · by_cases hc : ctx = [] <;> simp [runMailAct, hc]
    · rcases hid : p.id with _ | i <;>
        · simp only [runMailAct, hid]
          simp
          split_ifs <;> simp_all
    · simp only [runMailAct]
      simp
      split_ifs <;> simp_all
    · rcases hids : p.ids with _ | l <;> rcases hid : p.id with _ | i <;>
        · simp only [runMailAct, hids, hid]
          simp
          split_ifs <;> simp_all
    · rcases hids : p.ids with _ | l <;> rcases hid : p.id with _ | i <;>
        · simp only [runMailAct, hids, hid]
          simp
          split_ifs <;> simp_all
    · simp only [runMailAct]
      simp
      split_ifs <;> simp_all
    · simp only [runMailAct]
      simp
      split_ifs <;> simp_all
  · simp only [runMailAct]
    simp
    split_ifs <;> first | rfl | (split <;> rfl)

/-- Counterexample to C4 as stated: a successful `update_label` step (label
`L1` exists) leaves the previously listed item in the context instead of
clearing it. -/
theorem c4_counterexample :
    (runMailAct sampleEnv [{ id := "A", subject := "sA", from_ := "fA" }] "update_label"
        { id := some "L1", name := some "Renamed" }).err = none ∧
    (runMailAct sampleEnv [{ id := "A", subject := "sA", from_ := "fA" }] "update_label"
        { id := some "L1", name := some "Renamed" }).ctx =
      [{ id := "A", subject := "sA", from_ := "fA" }] := by
  decide

/-- Witness for C4 (amended): a successful `send` step empties a previously
non-empty context. -/
theorem c4_witness :
    ((runMailAct sampleEnv [{ id := "A", subject := "sA", from_ := "fA" }] "send"
        { to_ := some ["r@x"], subject := some "s", body := some "b" }).err = none →
      (runMailAct sampleEnv [{ id := "A", subject := "sA", from_ := "fA" }] "send"
        { to_ := some ["r@x"], subject := some "s", body := some "b" }).ctx = []) ∧
    (runMailAct sampleEnv [{ id := "A", subject := "sA", from_ := "fA" }] "send"
        { to_ := some ["r@x"], subject := some "s", body := some "b" }).err = none := by
  refine ⟨?_, by decide⟩
  exact (c4_context_cleared_amended sampleEnv [{ id := "A", subject := "sA", from_ := "fA" }]
    { to_ := some ["r@x"], subject := some "s", body := some "b" } "send"
    (Or.inr (Or.inr (Or.inr (Or.inl rfl))))).1

/-- **C8 (amended).** `summarize` does not leave the context alone: for every
prior context it resets the context to empty (and issues one summarize call
with the unified count defaulting to 3). -/
theorem c8_summarize_clears_context (env : MailEnv) (ctx : List ResultItem) (p : Params) :
    runMailAct env ctx "summarize" p =
      { ctx := [], calls := [MailCall.summarize (countOr p 3)], err := none } ∧
    runMailAct env ctx "summarize_emails_with_ai" p =
      { ctx := [], calls := [MailCall.summarize (countOr p 3)], err := none } := by
  constructor <;> simp [runMailAct]

/-- Counterexample to C8 as stated: with context `[A]` held before a
`summarize` step, the context after the step is `[]`, not the context
before. -/
theorem c8_counterexample :
    (runMailAct sampleEnv [{ id := "A", subject := "sA", from_ := "fA" }] "summarize" {}).ctx ≠
      [{ id := "A", subject := "sA", from_ := "fA" }] := by
  decide

/-- **C2 (amended).** For `read`, `attachments_info` and `move`, a supplied
`id` that is a *non-empty* literal not beginning with `\x7b\x7b` is used
verbatim as the sole target, for every environment and every context (the
context is neither consulted nor required non-empty, and no search is
issued even when a query is also present).  The restriction to non-empty
literals is forced: `attachments_info` treats an empty-string `id` as
falsy and falls back to the context. -/
theorem c2_literal_id_verbatim_amended (env : MailEnv) (ctx : List ResultItem) (p : Params)
    (i : String) (hne : i ≠ "") (hph : isPlaceholder i = false) (hp : p.id = some i) :
    runMailAct env ctx "read" p =
      { ctx := [], calls := [MailCall.readMsg i], err := none } ∧
    runMailAct env ctx "attachments_info" p =
      { ctx := [], calls := [MailCall.attachmentsInfo i], err := none } ∧
    (∀ lid, p.label_id = some lid → lid ≠ "" →
      env.labels.any (fun l => l.id = lid) = true →
      runMailAct env ctx "move" p =
        { ctx := ctx,
          calls := [MailCall.listLabels, MailCall.moveToLabel i lid],
          err := none }) := by
  refine ⟨?_, ?_, ?_⟩
  · simp [runMailAct, hp, hph]
  · simp [runMailAct, hp, hph, hne]
  · intro lid hlid hlne hany
    simp [runMailAct, hp, hph, hlid, hlne, hany, strTruthy]

/-- Counterexample to C2 as stated: for `attachments_info` the parameter
`id = ""` is a literal value not beginning with `\x7b\x7b`, yet with
context `[X]` the step targets `X`, not the literal. -/
theorem c2_counterexample :
    isPlaceholder "" = false ∧
    (runMailAct sampleEnv [{ id := "X", subject := "sX", from_ := "fX" }] "attachments_info"
        { id := some "" }).calls = [MailCall.attachmentsInfo "X"] := by
  decide

/-- Witness for C2 (amended): `read` with literal `id = "M9"` and a stale
query parameter reads exactly `M9`, ignoring the non-empty context. -/
theorem c2_witness :
    (("M9" : String) ≠ "") ∧ isPlaceholder "M9" = false ∧
    runMailAct sampleEnv [{ id := "X", subject := "sX", from_ := "fX" }] "read"
        { id := some "M9", query := some "urgent" } =
      { ctx := [], calls := [MailCall.readMsg "M9"], err := none } := by
  refine ⟨by decide, by decide, ?_⟩
  exact (c2_literal_id_verbatim_amended sampleEnv
    [{ id := "X", subject := "sX", from_ := "fX" }]
    { id := some "M9", query := some "urgent" } "M9" (by decide) (by decide) rfl).1

/-- **C3 (amended).** `mark_read`/`mark_unread` with neither `ids` nor `id`
marks exactly the context ids (in order) and clears the context; it fails
with an error when the context is empty — and also, an edge the claim
misses, when the first context id is the empty string (`not mids[0]`).
After a `list` with count 2 returning ids `a, b` (with `a` non-empty), the
batch `[list, mark_read]` marks exactly `a` then `b`. -/
theorem c3_mark_read_context_fallback_amended (env : MailEnv) (ctx : List ResultItem)
    (p : Params) (act : String) (hact : act = "mark_read" ∨ act = "mark_unread")
    (hids : p.ids = none) (hid : p.id = none) :
    (ctx = [] →
      runMailAct env ctx act p =
        { ctx := ctx, calls := [], err := some "No message IDs to mark" }) ∧
    (ctx ≠ [] → ctx.head?.map (fun x => x.id) ≠ some "" →
      runMailAct env ctx act p =
        { ctx := [],
          calls := ctx.map (fun x =>
            if act = "mark_read" then MailCall.markRead x.id else MailCall.markUnread x.id),
          err := none }) ∧
    (∀ a b, env.listRecent 2 = [a, b] → a ≠ "" →
      runMailSteps env
          [{ action := "list", parameters := { count := some 2 } },
           { action := act, parameters := p }]
          { ctx := [], calls := [], reports := [] } =
        { ctx := [],
          calls := [MailCall.listRecent 2, MailCall.getDetail a, MailCall.getDetail b,
            (if act = "mark_read" then MailCall.markRead a else MailCall.markUnread a),
            (if act = "mark_read" then MailCall.markRead b else MailCall.markUnread b)],
          reports := [{ action := "list", err := none }, { action := act, err := none }] }) := by
  have hstep : ∀ (c : List ResultItem), runMailAct env c act p =
      (if c.map (fun x => x.id) = [] ∨ ((c.map (fun x => x.id)).head?).getD "" = "" then
        { ctx := c, calls := [], err := some "No message IDs to mark" }
      else
        { ctx := [],
          calls := (c.map (fun x => x.id)).map (fun m =>
            if act = "mark_read" then MailCall.markRead m else MailCall.markUnread m),
          err := none } : StepResult) := by
    intro c
    rcases hact with rfl | rfl <;> simp [runMailAct, hids, hid]
  refine ⟨?_, ?_, ?_⟩
  · intro hc
    subst hc
    simp [hstep]
  · intro hc hh
    rw [hstep]
    rcases ctx with _ | ⟨x, rest⟩
    · exact absurd rfl hc
    · have hx : x.id ≠ "" := by
        intro hxe
        exact hh (by simp [hxe])
      simp [hx]
  · intro a b hlist ha
    have h1 : pyLower "list" = "list" := rfl
    have hact2 : pyLower act = act := by
      rcases hact with rfl | rfl <;> rfl
    simp only [runMailSteps, runMailStep, h1, hact2]
    have hl : runMailAct env [] "list" { count := some 2 } =
        { ctx := [detail env a, detail env b],
          calls := [MailCall.listRecent 2, MailCall.getDetail a, MailCall.getDetail b],
          err := none } := by
      simp [runMailAct, countOr, unifiedCount, pyOrNat, natTruthy, hlist]
    rw [hl, hstep]
    simp [detail, ha]

/-- Counterexample to C3 as stated: with the non-empty context
`[{id:""}]`, a bare `mark_read` fails and marks nothing instead of marking
exactly the context ids, and the context is left non-empty. -/
theorem c3_counterexample :
    ([({ id := "", subject := "s", from_ := "f" } : ResultItem)] ≠ ([] : List ResultItem)) ∧
    (runMailAct sampleEnv [{ id := "", subject := "s", from_ := "f" }] "mark_read" {}) =
      { ctx := [{ id := "", subject := "s", from_ := "f" }], calls := [],
        err := some "No message IDs to mark" } := by
  decide

/-- Witness for C3 (amended): after a `list` of 2 (sample backend returns
`m0`, `m1`), a bare `mark_read` marks exactly those two in order and the
context ends empty. -/
theorem c3_witness :
    sampleEnv.listRecent 2 = ["m0", "m1"] ∧
    runMailSteps sampleEnv
        [{ action := "list", parameters := { count := some 2 } },
         { action := "mark_read", parameters := {} }]
        { ctx := [], calls := [], reports := [] } =
      { ctx := [],
        calls := [MailCall.listRecent 2, MailCall.getDetail "m0", MailCall.getDetail "m1",
          MailCall.markRead "m0", MailCall.markRead "m1"],
        reports := [{ action := "list", err := none }, { action := "mark_read", err := none }] } := by
  refine ⟨by decide, ?_⟩
  have h := (c3_mark_read_context_fallback_amended sampleEnv [] {} "mark_read"
    (Or.inl rfl) rfl rfl).2.2 "m0" "m1" (by decide) (by decide)
  simpa using h

/-- **C6 (amended).** For `update_label` and the label target of `move`, a
supplied identifier that equals no existing label id is resolved as a label
name by case-insensitive exact match, the resolved id is what the backend
mutation receives, and an unresolvable identifier fails with the not-found
error and issues no mutation call.  `delete_label`, however, performs no
resolution at all: the supplied identifier is passed to the backend delete
verbatim, with no existence check and no not-found error. -/
theorem c6_label_resolution_amended (env : MailEnv) (ctx : List ResultItem) (p : Params) :
    (∀ lid new, p.id = some lid → lid ≠ "" → p.name = some new → new ≠ "" →
      env.labels.any (fun l => l.id = lid) = false →
      (∀ lab, env.labels.find? (fun l => pyLower l.name = pyLower lid) = some lab →
        runMailAct env ctx "update_label" p =
          { ctx := ctx,
            calls := [MailCall.listLabels, MailCall.listLabels,
              MailCall.updateLabel lab.id new],
            err := none }) ∧
      (env.labels.find? (fun l => pyLower l.name = pyLower lid) = none →
        runMailAct env ctx "update_label" p =
          { ctx := ctx, calls := [MailCall.listLabels, MailCall.listLabels],
            err := some "Label not found" })) ∧
    (∀ i lid, p.id = some i → isPlaceholder i = false → p.label_id = some lid → lid ≠ "" →
      env.labels.any (fun l => l.id = lid) = false →
      (∀ lab, env.labels.find? (fun l => pyLower l.name = pyLower lid) = some lab →
        runMailAct env ctx "move" p =
          { ctx := ctx,
            calls := [MailCall.listLabels, MailCall.moveToLabel i lab.id],
            err := none }) ∧
      (env.labels.find? (fun l => pyLower l.name = pyLower lid) = none →
        runMailAct env ctx "move" p =
          { ctx := ctx, calls := [MailCall.listLabels], err := some "Label not found" })) ∧
    (∀ lid, p.id = some lid → lid ≠ "" →
      runMailAct env ctx "delete_label" p =
        { ctx := [], calls := [MailCall.deleteLabel lid], err := none }) := by
  refine ⟨?_, ?_, ?_⟩
  · intro lid new hlid hlne hnew hnne hany
    constructor
    · intro lab hfind
      simp [runMailAct, hlid, hnew, hlne, hnne, hany, hfind, strTruthy]
    · intro hfind
      simp [runMailAct, hlid, hnew, hlne, hnne, hany, hfind, strTruthy]
  · intro i lid hi hiph hlid hlne hany
    constructor
    · intro lab hfind
      simp [runMailAct, hi, hiph, hlid, hlne, hany, hfind, strTruthy]
    · intro hfind
      simp [runMailAct, hi, hiph, hlid, hlne, hany, hfind, strTruthy]
  · intro lid hlid hlne
    simp [runMailAct, hlid, hlne, strTruthy]

/-- Counterexample to C6 as stated: `delete_label` with the label *name*
`Work` (no label has id `Work`; label `L1` is named `Work`) does not
resolve the name: the backend delete receives the string `Work` verbatim
and no not-found error is raised. -/
theorem c6_counterexample :
    sampleEnv.labels.any (fun l => l.id = "Work") = false ∧
    (sampleEnv.labels.find? (fun l => pyLower l.name = pyLower "Work")).map
        (fun l => l.id) = some "L1" ∧
    runMailAct sampleEnv [] "delete_label" { id := some "Work" } =
      { ctx := [], calls := [MailCall.deleteLabel "Work"], err := none } := by
  decide

/-- Witness for C6 (amended): `move` with a literal message id and
`label_id = "work"` (no such label id; case-insensitively matching the
label named `Work` with id `L1`) issues the move with the resolved id
`L1`. -/
theorem c6_witness :
    sampleEnv.labels.any (fun l => l.id = "work") = false ∧
    sampleEnv.labels.find? (fun l => pyLower l.name = pyLower "work") =
      some { id := "L1", name := "Work" } ∧
    runMailAct sampleEnv [] "move" { id := some "M1", label_id := some "work" } =
      { ctx := [], calls := [MailCall.listLabels, MailCall.moveToLabel "M1" "L1"],
        err := none } := by
  refine ⟨by decide, by decide, ?_⟩
  exact ((c6_label_resolution_amended sampleEnv []
    { id := some "M1", label_id := some "work" }).2.1 "M1" "work" rfl (by decide) rfl
    (by decide) (by decide)).1 { id := "L1", name := "Work" } (by decide)

/-- **C7.** Calendar `create` with `date = "tomorrow"` and no explicit
`start`/`end`: the date resolves to the day after the current IST date; an
`%I%p` time gives a one-hour slot at that hour; no time gives the
09:00–10:00 slot — and concretely, on 2024-05-01 with no time the inserted
event has start `2024-05-02T09:00:00+05:30` and end
`2024-05-02T10:00:00+05:30`. -/
theorem c7_calendar_create_tomorrow (env : CalEnv) (today : Date) (ctx : List CalItem)
    (p : Params) (hs : p.start = none) (he : p.end_ = none) (hd : p.date = some "tomorrow") :
    (p.time = none →
      runCalAct env today ctx "create" p =
        { ctx := [{ id := env.insertId, start := "", summary := "" }],
          calls := [CalCall.insertEvent (p.summary.getD "No Title")
            (isoDate (nextDay today) ++ "T09:00:00+05:30")
            (isoDate (nextDay today) ++ "T10:00:00+05:30") p.description],
          err := none }) ∧
    (∀ t h, p.time = some t → parseTime12 (pyLower t) = some h →
      runCalAct env today ctx "create" p =
        { ctx := [{ id := env.insertId, start := "", summary := "" }],
          calls := [CalCall.insertEvent (p.summary.getD "No Title")
            (isoDate (nextDay today) ++ "T" ++ pad2 h ++ ":00:00+05:30")
            (isoDate (nextDay today) ++ "T" ++ pad2 (h + 1) ++ ":00:00+05:30") p.description],
          err := none }) ∧
    (isoDate (nextDay ⟨2024, 5, 1⟩) = "2024-05-02") := by
  have htom : pyLower (pyStrip "tomorrow") = "tomorrow" := rfl
  refine ⟨?_, ?_, by decide⟩
  · intro ht
    simp [runCalAct, calendarCreateStartEnd, hs, he, hd, ht, htom]
  · intro t h ht hparse
    have htne : t ≠ "" := by
      intro hte
      rw [hte] at hparse
      exact Option.noConfusion hparse
    simp [runCalAct, calendarCreateStartEnd, hs, he, hd, ht, htne, htom, hparse]

/-- Witness for C7: on 2024-05-01, `create` with `date="tomorrow"` and no
time inserts a 2024-05-02 09:00–10:00 (+05:30) event, and with time
`"5PM"` a 17:00–18:00 slot. -/
theorem c7_witness :
    runCalAct sampleCalEnv ⟨2024, 5, 1⟩ [] "create" { date := some "tomorrow" } =
      { ctx := [{ id := "EV1", start := "", summary := "" }],
        calls := [CalCall.insertEvent "No Title" "2024-05-02T09:00:00+05:30"
          "2024-05-02T10:00:00+05:30" none],
        err := none } ∧
    parseTime12 (pyLower "5PM") = some 17 ∧
    runCalAct sampleCalEnv ⟨2024, 5, 1⟩ [] "create"
        { date := some "tomorrow", time := some "5PM" } =
      { ctx := [{ id := "EV1", start := "", summary := "" }],
        calls := [CalCall.insertEvent "No Title" "2024-05-02T17:00:00+05:30"
          "2024-05-02T18:00:00+05:30" none],
        err := none } := by
  refine ⟨?_, by decide, ?_⟩
  · have h := (c7_calendar_create_tomorrow sampleCalEnv ⟨2024, 5, 1⟩ []
      { date := some "tomorrow" } rfl rfl rfl).1 rfl
    rw [h]
    decide
  · have h := (c7_calendar_create_tomorrow sampleCalEnv ⟨2024, 5, 1⟩ []
      { date := some "tomorrow", time := some "5PM" } rfl rfl rfl).2.1 "5PM" 17 rfl (by decide)
    rw [h]
    decide

/-- **C9.** The folder-name cache is *not* invalidated by `delete_file`:
after `create_folder("Work")` (backend id `N1`, cached), then
`delete_file("N1")`, a `move_file` targeting `"Work"` resolves through the
cache to the stale id `N1` of the deleted folder — even though the backend
still holds a surviving folder `Work` with id `F1` that a fresh lookup
would return.  This contradicts the claim (and the spec's stated intent),
exhibiting the stale-cache bug. -/
theorem c9_stale_cache_bug :
    (runDriveSteps
        [{ action := "create_folder", parameters := { name := some "Work" } },
         { action := "delete_file", parameters := { file_id := some "N1" } },
         { action := "move_file",
           parameters := { file_id := some "X", folder_id := some "Work" } }]
        { st := sampleDrive, calls := [], reports := [] }).calls =
      [DriveCall.createFolder "Work" [], DriveCall.deleteFile "N1",
       DriveCall.updateParents "X" "N1" "root"] ∧
    (runDriveSteps
        [{ action := "create_folder", parameters := { name := some "Work" } },
         { action := "delete_file", parameters := { file_id := some "N1" } },
         { action := "move_file",
           parameters := { file_id := some "X", folder_id := some "Work" } }]
        { st := sampleDrive, calls := [], reports := [] }).st.files.any
      (fun f => f.id = "N1") = false ∧
    get_folder_id_by_name
      (runDriveSteps
        [{ action := "create_folder", parameters := { name := some "Work" } },
         { action := "delete_file", parameters := { file_id := some "N1" } },
         { action := "move_file",
           parameters := { file_id := some "X", folder_id := some "Work" } }]
        { st := sampleDrive, calls := [], reports := [] }).st.files "Work" = some "F1" := by
  decide

/-- **C10.** A mail `search` step whose parameters hold no non-empty
`query`/`q` behaves exactly like `list`: it does not fail, fetches the most
recent messages (the truthy unified count, or 5 by default) and replaces
the context with their `{id, subject, from}` details in server order. -/
theorem c10_search_without_query_is_list (env : MailEnv) (ctx : List ResultItem) (p : Params)
    (hq : strTruthy (unifiedQuery p) = false) :
    runMailAct env ctx "search" p = runMailAct env ctx "list" p ∧
    (runMailAct env ctx "search" p).err = none ∧
    (runMailAct env ctx "search" p).ctx =
      (env.listRecent (countOr p 5)).map (detail env) ∧
    (∀ k, k ≠ 0 → p.count = some k →
      (runMailAct env ctx "search" p).ctx = (env.listRecent k).map (detail env)) ∧
    (p.count = none → p.maxResults = none → p.max_results = none →
      (runMailAct env ctx "search" p).ctx = (env.listRecent 5).map (detail env)) := by
  refine ⟨?_, ?_, ?_, ?_, ?_⟩
  · simp [runMailAct, hq]
  · simp [runMailAct, hq]
  · simp [runMailAct, hq]
  · intro k hk hc
    simp [runMailAct, hq, countOr, unifiedCount, pyOrNat, natTruthy, hc, hk]
  · intro h1 h2 h3
    simp [runMailAct, hq, countOr, unifiedCount, pyOrNat, natTruthy, h1, h2, h3]

/-- Witness for C10: `search` with `q = ""` and `count = 2` equals `list`
and fills the context with the two most recent messages' details. -/
theorem c10_witness :
    strTruthy (unifiedQuery { q := some "", count := some 2 }) = false ∧
    runMailAct sampleEnv [] "search" { q := some "", count := some 2 } =
      runMailAct sampleEnv [] "list" { q := some "", count := some 2 } ∧
    (runMailAct sampleEnv [] "search" { q := some "", count := some 2 }).ctx =
      [{ id := "m0", subject := "subj-m0", from_ := "from-m0" },
       { id := "m1", subject := "subj-m1", from_ := "from-m1" }] ∧
    (runMailAct sampleEnv [] "search" { q := some "", count := some 2 }).err = none := by
  have h := c10_search_without_query_is_list sampleEnv [] { q := some "", count := some 2 }
    (by decide)
  refine ⟨by decide, h.1, ?_, h.2.1⟩
  rw [h.2.2.2.1 2 (by decide) rfl]
  decide

end IntentRouter
